import Mathlib

/-!
Verification of the two scripts in this repository.

* `quantopian_get_pricing.py` — `get_pricing`, a yfinance wrapper that
  reshapes a downloaded price table into Quantopian's legacy layout.
  The pandas frame is embedded as an explicit (index levels, columns)
  record of labelled value lists, and each pandas operation used by the
  script (`rename`, column assignment, `reset_index`, `set_index`,
  scalar broadcast) is given its value-level meaning.  The network call
  `yf.download` is an opaque oracle passed in as a function argument.

* `multivit_pricing.py` — `get_product_price` / `lambda_handler`, a
  Selenium scraper.  The browser is an oracle of outcomes and the body
  is run under an explicit try/finally that appends the `quit` event,
  so release-on-every-exit-path is a provable property of the trace.
-/

set_option autoImplicit false

/-- A pandas cell value: numeric data or a string (ticker symbols). -/
inductive Value where
  | num : Int → Value
  | str : String → Value
deriving DecidableEq

/-- Labelled columns: association list of column name to cell list. -/
abbrev Cols := List (String × List Value)

/-- Does a column with the given label exist? -/
def hasNameL (cs : Cols) (n : String) : Bool :=
  cs.any (fun c => c.1 == n)

/-- First column with the given label (pandas label lookup). -/
def colFindL (cs : Cols) (n : String) : Option (List Value) :=
  (cs.find? (fun c => c.1 == n)).map Prod.snd

/-- pandas column assignment `df[n] = vs`: overwrite every column
labelled `n` if one exists, otherwise append a new column at the end. -/
def setColL (cs : Cols) (n : String) (vs : List Value) : Cols :=
  if hasNameL cs n then
    cs.map (fun c => if c.1 == n then (n, vs) else c)
  else
    cs ++ [(n, vs)]

/-- Drop every column labelled `n` (pandas `set_index` removes the
column it moves into the index). -/
def removeColL (cs : Cols) (n : String) : Cols :=
  cs.filter (fun c => !(c.1 == n))

/-- A pandas DataFrame: named index levels plus labelled data columns.
Each index level and each column is a list of cells, one per row. -/
structure DataFrame where
  index : List (String × List Value)
  cols : Cols
deriving DecidableEq

/-- Number of rows: the length of the first index level. -/
def DataFrame.nrows (df : DataFrame) : Nat :=
  match df.index with
  | [] => 0
  | l :: _ => l.2.length

/-- pandas `df.empty`: true when there are no rows or no columns. -/
def DataFrame.isEmpty (df : DataFrame) : Bool :=
  df.nrows == 0 || df.cols.isEmpty

/-- `df[n]` as a lookup (first matching column). -/
def DataFrame.getCol (df : DataFrame) (n : String) : Option (List Value) :=
  colFindL df.cols n

/-- The column labels, in order. -/
def DataFrame.colNames (df : DataFrame) : List String :=
  df.cols.map Prod.fst

/-- A Python exception escaping `get_pricing` / the scraper. -/
inductive PyError where
  | valueError : String → PyError
  | keyError : String → PyError
  | webDriverError : String → PyError
  | noSuchElement : String → PyError
deriving DecidableEq

/-- Apply a rename mapping to one label (identity when unmapped). -/
def applyRename (m : List (String × String)) (s : String) : String :=
  match m.find? (fun p => p.1 == s) with
  | some p => p.2
  | none => s

/-- Rename the labels of every column (pandas `df.rename(columns=m)`;
labels not in the mapping are left unchanged, data untouched). -/
def renameCols (m : List (String × String)) (cs : Cols) : Cols :=
  cs.map (fun c => (applyRename m c.1, c.2))

/-- pandas `df.rename(columns=m)` at the frame level. -/
def DataFrame.rename (df : DataFrame) (m : List (String × String)) : DataFrame :=
  { df with cols := renameCols m df.cols }

/-- `df[dst] = df[src]`: raises a key error when `src` is absent,
exactly as `data["price"] = data["close_price"]` would in Python. -/
def DataFrame.assignCopy (df : DataFrame) (dst src : String) : Except PyError DataFrame :=
  match df.getCol src with
  | none => Except.error (PyError.keyError src)
  | some vs => Except.ok { df with cols := setColL df.cols dst vs }

/-- `df.index.name = n`: rename the first index level. -/
def DataFrame.setIndexName (df : DataFrame) (n : String) : DataFrame :=
  { df with index :=
      match df.index with
      | [] => []
      | l :: rest => (n, l.2) :: rest }

/-- pandas `df.reset_index()`: move every index level to the front of
the columns and install an unnamed integer range index.  Raises when an
index level name collides with an existing column label. -/
def DataFrame.resetIndex (df : DataFrame) : Except PyError DataFrame :=
  if df.index.any (fun l => hasNameL df.cols l.1) then
    Except.error (PyError.valueError "cannot insert, already exists")
  else
    Except.ok { index := [("", (List.range df.nrows).map (fun i => Value.num (Int.ofNat i)))],
                cols := df.index ++ df.cols }

/-- pandas `df.set_index([n])`: replace the index by the column `n`,
removing it from the data columns.  Key error when absent. -/
def DataFrame.setIndexCol (df : DataFrame) (n : String) : Except PyError DataFrame :=
  match df.getCol n with
  | none => Except.error (PyError.keyError n)
  | some vs => Except.ok { index := [(n, vs)], cols := removeColL df.cols n }

/-- pandas `df.set_index(n, append=True)`: append column `n` as a new
last index level, removing it from the data columns. -/
def DataFrame.setIndexAppend (df : DataFrame) (n : String) : Except PyError DataFrame :=
  match df.getCol n with
  | none => Except.error (PyError.keyError n)
  | some vs => Except.ok { index := df.index ++ [(n, vs)], cols := removeColL df.cols n }

/-- `df[n] = scalar`: broadcast a scalar over all rows. -/
def DataFrame.setScalar (df : DataFrame) (n : String) (v : Value) : DataFrame :=
  { df with cols := setColL df.cols n (List.replicate df.nrows v) }

/-- The rename mapping hard-coded in `get_pricing`. -/
def renameMap : List (String × String) :=
  [("Open", "open_price"), ("High", "high"), ("Low", "low"),
   ("Close", "close_price"), ("Volume", "volume")]

/-- The shaping steps of `get_pricing` after the download and the
emptiness check, in source order: rename columns, copy `close_price`
into `price`, rename the index to `timestamp`, reset and re-set the
index, broadcast the ticker into a `symbol` column and fold it into the
index as a second level. -/
def shape (ticker : String) (data0 : DataFrame) : Except PyError DataFrame :=
  let data1 := data0.rename renameMap
  match data1.assignCopy "price" "close_price" with
  | Except.error e => Except.error e
  | Except.ok data2 =>
    let data3 := data2.setIndexName "timestamp"
    match data3.resetIndex with
    | Except.error e => Except.error e
    | Except.ok data4 =>
      match data4.setIndexCol "timestamp" with
      | Except.error e => Except.error e
      | Except.ok data5 =>
        let data6 := data5.setScalar "symbol" (Value.str ticker)
        data6.setIndexAppend "symbol"

/-- What `yf.download` hands back on success: a frame with one
datetime row-index level and flat string column labels. -/
structure RawFrame where
  dates : List Value
  cols : Cols
deriving DecidableEq

/-- View a provider result as a DataFrame (yfinance names the single
row-index level `Date`; the script renames it immediately). -/
def RawFrame.toFrame (r : RawFrame) : DataFrame :=
  { index := [("Date", r.dates)], cols := r.cols }

/-- The interval selection at the top of `get_pricing`:
`if frequency == "1m": interval = "1m" else: interval = frequency`. -/
def interval (frequency : String) : String :=
  if frequency == "1m" then "1m" else frequency

/-- `get_pricing` once the provider response is in hand: wrap a raised
provider error in a `ValueError`, reject an empty frame with a
`ValueError`, otherwise shape. -/
def get_pricing_of (resp : Except String RawFrame) (ticker start_date end_date : String) :
    Except PyError DataFrame :=
  match resp with
  | Except.error e =>
      Except.error (PyError.valueError ("Error fetching data for " ++ ticker ++ ": " ++ e))
  | Except.ok raw =>
      if raw.toFrame.isEmpty then
        Except.error (PyError.valueError
          ("No data found for " ++ ticker ++ " from " ++ start_date ++ " to " ++ end_date ++ "."))
      else
        shape ticker raw.toFrame

/-- `get_pricing(ticker, start_date, end_date, frequency)`, with the
`yf.download` call abstracted as the oracle `download` receiving the
computed interval.  (The source gives `frequency` the default "1d".) -/
def get_pricing (download : String → String → String → String → Except String RawFrame)
    (ticker start_date end_date frequency : String) : Except PyError DataFrame :=
  get_pricing_of (download ticker start_date end_date (interval frequency))
    ticker start_date end_date

/-- Observable events of one scraper invocation, in order. -/
inductive Event where
  | navigate : String → Event
  | sleep : Nat → Event
  | findElement : String → Event
  | printed : String → Event
  | quit : Event
deriving DecidableEq

/-- The browser oracle: outcome of driver creation, of `driver.get`,
and of `find_element` (element text on success). -/
structure Browser where
  setup : Except String Unit
  nav : Except String Unit
  find : Except String String

/-- Sequencing with early exit: a failed step stops the run but keeps
the events emitted so far. -/
def seqE {α β : Type} (m : List Event × Except PyError α)
    (k : α → List Event × Except PyError β) : List Event × Except PyError β :=
  match m with
  | (evs, Except.error e) => (evs, Except.error e)
  | (evs, Except.ok a) =>
      let r := k a
      (evs ++ r.1, r.2)

/-- Python `try ... finally fin`: the finaliser events always run,
whether the body succeeded or raised (the exception is re-raised). -/
def runFinally {α : Type} (m : List Event × Except PyError α) (fin : List Event) :
    List Event × Except PyError α :=
  (m.1 ++ fin, m.2)

/-- The product page URL hard-coded in `get_product_price`. -/
def product_url : String :=
  "https://www.bulk.com/uk/products/sports-multi-am-pm/bpps-smul"

/-- The CSS selector hard-coded in `get_product_price`. -/
def price_css : String :=
  "span.dropin-price.dropin-price--default.dropin-price--small.dropin-price--bold"

/-- The try-block body of `get_product_price`: navigate, fixed sleep,
locate the element, print and return its text. -/
def fetch_body (b : Browser) : List Event × Except PyError String :=
  seqE ([Event.navigate product_url],
        match b.nav with
        | Except.error e => Except.error (PyError.webDriverError e)
        | Except.ok _ => Except.ok ())
    (fun _ =>
      seqE ([Event.sleep 10], Except.ok ())
        (fun _ =>
          seqE ([Event.findElement price_css],
                match b.find with
                | Except.error e => Except.error (PyError.noSuchElement e)
                | Except.ok t => Except.ok t)
            (fun t => ([Event.printed ("Current Price: " ++ t)], Except.ok t))))

/-- `get_product_price`: create the driver, then run the body under
`try/finally driver.quit()`.  If driver creation itself raises there is
no session to release and the error propagates. -/
def get_product_price (b : Browser) : List Event × Except PyError String :=
  match b.setup with
  | Except.error e => ([], Except.error (PyError.webDriverError e))
  | Except.ok _ => runFinally (fetch_body b) [Event.quit]

/-- The serverless response envelope. -/
structure LambdaResponse where
  statusCode : Nat
  body : String
deriving DecidableEq

/-- `lambda_handler`: call `get_product_price` and wrap the text; any
exception from the fetch propagates unhandled. -/
def lambda_handler (b : Browser) : List Event × Except PyError LambdaResponse :=
  match get_product_price b with
  | (evs, Except.error e) => (evs, Except.error e)
  | (evs, Except.ok price) =>
      (evs, Except.ok { statusCode := 200, body := "The current price is: " ++ price })

/-- A one-row provider response with exactly the five native yfinance
columns, used to exercise the adapter on concrete data. -/
def rawGood : RawFrame :=
  { dates := [Value.num 0],
    cols := [("Open", [Value.num 10]), ("High", [Value.num 12]), ("Low", [Value.num 9]),
             ("Close", [Value.num 11]), ("Volume", [Value.num 1000])] }

/-- A provider oracle that always answers with `rawGood`. -/
def dlGood : String → String → String → String → Except String RawFrame :=
  fun _ _ _ _ => Except.ok rawGood

/-- A second, separately defined oracle with the same behaviour. -/
def dlGoodAgain : String → String → String → String → Except String RawFrame :=
  fun _ _ _ _ => Except.ok rawGood

/-- The table `get_pricing` produces from `rawGood` for ticker AAPL. -/
def outGood : DataFrame :=
  { index := [("timestamp", [Value.num 0]), ("symbol", [Value.str "AAPL"])],
    cols := [("open_price", [Value.num 10]), ("high", [Value.num 12]), ("low", [Value.num 9]),
             ("close_price", [Value.num 11]), ("volume", [Value.num 1000]),
             ("price", [Value.num 11])] }

/-- A one-row provider response carrying the extra provider-native
column `Adj Close`, which real yfinance includes by default. -/
def rawAdj : RawFrame :=
  { dates := [Value.num 0],
    cols := [("Open", [Value.num 10]), ("High", [Value.num 12]), ("Low", [Value.num 9]),
             ("Close", [Value.num 11]), ("Adj Close", [Value.num 7]),
             ("Volume", [Value.num 1000])] }

/-- A provider oracle that always answers with `rawAdj`. -/
def dlAdj : String → String → String → String → Except String RawFrame :=
  fun _ _ _ _ => Except.ok rawAdj

/-- A non-empty provider response that lacks any close column. -/
def rawNoClose : RawFrame :=
  { dates := [Value.num 0], cols := [("Open", [Value.num 1])] }

/-- A provider oracle that always answers with `rawNoClose`. -/
def dlNoClose : String → String → String → String → Except String RawFrame :=
  fun _ _ _ _ => Except.ok rawNoClose

/-- The empty provider response (columns present, zero rows), the form
yfinance returns when no data exists in the requested range. -/
def rawEmpty : RawFrame :=
  { dates := [],
    cols := [("Open", []), ("High", []), ("Low", []), ("Close", []), ("Volume", [])] }

/-- A provider oracle that always answers with `rawEmpty`. -/
def dlEmpty : String → String → String → String → Except String RawFrame :=
  fun _ _ _ _ => Except.ok rawEmpty

/-- A browser whose navigation and element lookup both succeed. -/
def bOk : Browser :=
  { setup := Except.ok (), nav := Except.ok (), find := Except.ok "£9.99" }

/-- A browser where the price element is absent after the fixed wait. -/
def bNoElem : Browser :=
  { setup := Except.ok (), nav := Except.ok (),
    find := Except.error "no such element" }

theorem colFindL_cons (c : String × List Value) (cs : Cols) (n : String) :
    colFindL (c :: cs) n = if (c.1 == n) = true then some c.2 else colFindL cs n := by
  by_cases h : (c.1 == n) = true
  · simp [colFindL, List.find?_cons_of_pos _ h, h]
  · simp [colFindL, List.find?_cons_of_neg _ h, h]

theorem hasNameL_eq_isSome (cs : Cols) (n : String) :
    hasNameL cs n = (colFindL cs n).isSome := by
  induction cs with
  | nil => rfl
  | cons c cs ih =>
    rw [colFindL_cons]
    by_cases h : (c.1 == n) = true
    · simp [hasNameL, List.any_cons, h]
    · simp only [hasNameL, List.any_cons] at ih ⊢
      simp [h, ih]

theorem colFindL_eq_none (cs : Cols) (n : String) (h : hasNameL cs n = false) :
    colFindL cs n = none := by
  rw [hasNameL_eq_isSome] at h
  cases hc : colFindL cs n with
  | none => rfl
  | some v => rw [hc] at h; simp at h

theorem colFindL_append (cs ds : Cols) (n : String) :
    colFindL (cs ++ ds) n = (colFindL cs n).or (colFindL ds n) := by
  simp only [colFindL, List.find?_append]
  cases List.find? (fun c => c.1 == n) cs <;> simp [Option.or]

theorem colFindL_replace_self (cs : Cols) (n : String) (vs : List Value)
    (h : hasNameL cs n = true) :
    colFindL (cs.map (fun c => if c.1 == n then (n, vs) else c)) n = some vs := by
  induction cs with
  | nil => simp [hasNameL] at h
  | cons c cs ih =>
    rw [List.map_cons]
    by_cases hc : (c.1 == n) = true
    · rw [if_pos hc, colFindL_cons]
      simp
    · rw [if_neg hc, colFindL_cons, if_neg (by simp [hc])]
      apply ih
      simp only [hasNameL, List.any_cons, hc, Bool.false_or] at h
      exact h

theorem colFindL_replace_ne (cs : Cols) (m n : String) (vs : List Value) (h : m ≠ n) :
    colFindL (cs.map (fun c => if c.1 == m then (m, vs) else c)) n = colFindL cs n := by
  induction cs with
  | nil => rfl
  | cons c cs ih =>
    rw [List.map_cons]
    by_cases hc : (c.1 == m) = true
    · have hcm : c.1 = m := by simpa using hc
      have h1 : (m == n) = false := by simpa using h
      rw [if_pos hc, colFindL_cons, colFindL_cons,
        if_neg (by simp [h1]), if_neg (by rw [hcm]; simp [h1])]
      exact ih
    · rw [if_neg hc, colFindL_cons, colFindL_cons, ih]

theorem colFindL_setColL_self (cs : Cols) (n : String) (vs : List Value) :
    colFindL (setColL cs n vs) n = some vs := by
  rw [setColL]
  by_cases h : hasNameL cs n = true
  · rw [if_pos h]
    exact colFindL_replace_self cs n vs h
  · rw [if_neg h, colFindL_append, colFindL_eq_none cs n (by simpa using h)]
    simp [colFindL_cons]

theorem colFindL_setColL_ne (cs : Cols) (m n : String) (vs : List Value) (h : m ≠ n) :
    colFindL (setColL cs m vs) n = colFindL cs n := by
  rw [setColL]
  by_cases hm : hasNameL cs m = true
  · rw [if_pos hm]
    exact colFindL_replace_ne cs m n vs h
  · have h1 : (m == n) = false := by simpa using h
    rw [if_neg hm, colFindL_append, colFindL_cons, if_neg (by simp [h1])]
    cases h2 : colFindL cs n <;> rfl

theorem hasNameL_setColL_ne (cs : Cols) (m n : String) (vs : List Value) (h : m ≠ n) :
    hasNameL (setColL cs m vs) n = hasNameL cs n := by
  rw [hasNameL_eq_isSome, hasNameL_eq_isSome, colFindL_setColL_ne cs m n vs h]

theorem removeColL_eq_self (cs : Cols) (n : String) (h : hasNameL cs n = false) :
    removeColL cs n = cs := by
  induction cs with
  | nil => rfl
  | cons c cs ih =>
    simp only [hasNameL, List.any_cons, Bool.or_eq_false_iff] at h
    rw [removeColL, List.filter_cons, if_pos (by simp [h.1])]
    rw [removeColL] at ih
    rw [ih h.2]

theorem removeColL_replace_self (cs : Cols) (n : String) (vs : List Value) :
    removeColL (cs.map (fun c => if c.1 == n then (n, vs) else c)) n = removeColL cs n := by
  induction cs with
  | nil => rfl
  | cons c cs ih =>
    rw [List.map_cons]
    by_cases hc : (c.1 == n) = true
    · rw [if_pos hc, removeColL, removeColL, List.filter_cons, List.filter_cons]
      rw [if_neg (by simp), if_neg (by simp [hc])]
      exact ih
    · rw [if_neg hc, removeColL, removeColL, List.filter_cons, List.filter_cons]
      rw [if_pos (by simp [hc]), if_pos (by simp [hc])]
      rw [removeColL, removeColL] at ih
      rw [ih]

theorem removeColL_setColL_self (cs : Cols) (n : String) (vs : List Value) :
    removeColL (setColL cs n vs) n = removeColL cs n := by
  rw [setColL]
  by_cases h : hasNameL cs n = true
  · rw [if_pos h]
    exact removeColL_replace_self cs n vs
  · rw [if_neg h, removeColL, List.filter_append]
    simp only [List.filter_cons, List.filter_nil]
    rw [if_neg (by simp)]
    rw [removeColL]
    simp

theorem colFindL_removeColL_ne (cs : Cols) (m n : String) (h : n ≠ m) :
    colFindL (removeColL cs m) n = colFindL cs n := by
  induction cs with
  | nil => rfl
  | cons c cs ih =>
    rw [removeColL, List.filter_cons]
    by_cases hc : (c.1 == m) = true
    · have hcm : c.1 = m := by simpa using hc
      rw [if_neg (by simp [hc]), colFindL_cons, if_neg (by simp [hcm]; exact fun e => h e.symm)]
      rw [removeColL] at ih
      exact ih
    · rw [if_pos (by simp [hc]), colFindL_cons, colFindL_cons]
      rw [removeColL] at ih
      rw [ih]

theorem assignCopy_ok (idx : List (String × List Value)) (cs : Cols) (cv : List Value)
    (h : colFindL cs "close_price" = some cv) :
    DataFrame.assignCopy { index := idx, cols := cs } "price" "close_price" =
      Except.ok { index := idx, cols := setColL cs "price" cv } := by
  simp only [DataFrame.assignCopy, DataFrame.getCol, h]

theorem resetIndex_one (n : String) (dates : List Value) (cs : Cols)
    (h : hasNameL cs n = false) :
    DataFrame.resetIndex { index := [(n, dates)], cols := cs } =
      Except.ok { index := [("", (List.range dates.length).map (fun i => Value.num (Int.ofNat i)))],
                  cols := (n, dates) :: cs } := by
  simp only [DataFrame.resetIndex, DataFrame.nrows, List.any_cons, List.any_nil, h, Bool.or_false]
  rfl

theorem setIndexCol_head (idx : List (String × List Value)) (n : String) (dates : List Value)
    (cs : Cols) :
    DataFrame.setIndexCol { index := idx, cols := (n, dates) :: cs } n =
      Except.ok { index := [(n, dates)], cols := removeColL cs n } := by
  have h : colFindL ((n, dates) :: cs) n = some dates := by
    rw [colFindL_cons, if_pos (by simp)]
  simp only [DataFrame.setIndexCol, DataFrame.getCol, h, removeColL, List.filter_cons]
  rw [if_neg (by simp)]

theorem setIndexAppend_set (idx : List (String × List Value)) (cs : Cols) (n : String)
    (vs : List Value) :
    DataFrame.setIndexAppend { index := idx, cols := setColL cs n vs } n =
      Except.ok { index := idx ++ [(n, vs)], cols := removeColL cs n } := by
  simp only [DataFrame.setIndexAppend, DataFrame.getCol, colFindL_setColL_self,
    removeColL_setColL_self]

theorem shape_ok_of (t n0 : String) (dates : List Value) (cs : Cols) (cv : List Value)
    (hc : colFindL (renameCols renameMap cs) "close_price" = some cv)
    (ht : hasNameL (renameCols renameMap cs) "timestamp" = false) :
    shape t { index := [(n0, dates)], cols := cs } =
      Except.ok { index := [("timestamp", dates),
                            ("symbol", List.replicate dates.length (Value.str t))],
                  cols := removeColL (setColL (renameCols renameMap cs) "price" cv) "symbol" } := by
  have h2 : hasNameL (setColL (renameCols renameMap cs) "price" cv) "timestamp" = false := by
    rw [hasNameL_setColL_ne _ _ _ _ (by decide)]
    exact ht
  simp only [shape, DataFrame.rename]
  rw [assignCopy_ok _ _ _ hc]
  dsimp only
  simp only [DataFrame.setIndexName]
  rw [resetIndex_one _ _ _ h2]
  dsimp only
  rw [setIndexCol_head]
  dsimp only
  rw [removeColL_eq_self _ _ h2]
  simp only [DataFrame.setScalar, DataFrame.nrows]
  rw [setIndexAppend_set]
  rfl

theorem shape_err_noClose (t n0 : String) (dates : List Value) (cs : Cols)
    (hc : colFindL (renameCols renameMap cs) "close_price" = none) :
    shape t { index := [(n0, dates)], cols := cs } =
      Except.error (PyError.keyError "close_price") := by
  simp only [shape, DataFrame.rename, DataFrame.assignCopy, DataFrame.getCol, hc]

theorem shape_err_collision (t n0 : String) (dates : List Value) (cs : Cols) (cv : List Value)
    (hc : colFindL (renameCols renameMap cs) "close_price" = some cv)
    (ht : hasNameL (renameCols renameMap cs) "timestamp" = true) :
    shape t { index := [(n0, dates)], cols := cs } =
      Except.error (PyError.valueError "cannot insert, already exists") := by
  have h2 : hasNameL (setColL (renameCols renameMap cs) "price" cv) "timestamp" = true := by
    rw [hasNameL_setColL_ne _ _ _ _ (by decide)]
    exact ht
  simp only [shape, DataFrame.rename]
  rw [assignCopy_ok _ _ _ hc]
  dsimp only
  simp only [DataFrame.setIndexName]
  simp only [DataFrame.resetIndex, List.any_cons, List.any_nil, h2, Bool.or_false]
  rfl

theorem shape_ok_inv (t n0 : String) (dates : List Value) (cs : Cols) (out : DataFrame)
    (h : shape t { index := [(n0, dates)], cols := cs } = Except.ok out) :
    ∃ cv, colFindL (renameCols renameMap cs) "close_price" = some cv ∧
      hasNameL (renameCols renameMap cs) "timestamp" = false ∧
      out = { index := [("timestamp", dates),
                        ("symbol", List.replicate dates.length (Value.str t))],
              cols := removeColL (setColL (renameCols renameMap cs) "price" cv) "symbol" } := by
  cases hc : colFindL (renameCols renameMap cs) "close_price" with
  | none =>
    rw [shape_err_noClose t n0 dates cs hc] at h
    cases h
  | some cv =>
    cases ht : hasNameL (renameCols renameMap cs) "timestamp" with
    | true =>
      rw [shape_err_collision t n0 dates cs cv hc ht] at h
      cases h
    | false =>
      refine ⟨cv, rfl, rfl, ?_⟩
      rw [shape_ok_of t n0 dates cs cv hc ht] at h
      exact (Except.ok.inj h).symm

theorem get_pricing_ok_inv (dl : String → String → String → String → Except String RawFrame)
    (t s e f : String) (raw : RawFrame) (out : DataFrame)
    (hdl : dl t s e (interval f) = Except.ok raw)
    (h : get_pricing dl t s e f = Except.ok out) :
    raw.toFrame.isEmpty = false ∧
    ∃ cv, colFindL (renameCols renameMap raw.cols) "close_price" = some cv ∧
      hasNameL (renameCols renameMap raw.cols) "timestamp" = false ∧
      out = { index := [("timestamp", raw.dates),
                        ("symbol", List.replicate raw.dates.length (Value.str t))],
              cols := removeColL (setColL (renameCols renameMap raw.cols) "price" cv) "symbol" } := by
  rw [get_pricing, hdl] at h
  cases he : raw.toFrame.isEmpty with
  | true => simp [get_pricing_of, he] at h
  | false =>
    refine ⟨rfl, ?_⟩
    simp only [get_pricing_of, he, Bool.false_eq_true, if_false] at h
    rw [RawFrame.toFrame] at h
    exact shape_ok_inv t "Date" raw.dates raw.cols out h

/-- C1: for every provider response on which `get_pricing` returns
normally, the returned table's `price` column equals its `close_price`
column element-wise (and both columns are present). -/
theorem price_duplicates_close (dl : String → String → String → String → Except String RawFrame)
    (t s e f : String) (out : DataFrame)
    (h : get_pricing dl t s e f = Except.ok out) :
    out.getCol "price" = out.getCol "close_price" ∧ (out.getCol "price").isSome = true := by
  cases hdl : dl t s e (interval f) with
  | error msg => rw [get_pricing, hdl] at h; simp [get_pricing_of] at h
  | ok raw =>
    obtain ⟨hne, cv, hc, ht, rfl⟩ := get_pricing_ok_inv dl t s e f raw out hdl h
    constructor
    · rw [DataFrame.getCol, DataFrame.getCol]
      dsimp only
      rw [colFindL_removeColL_ne _ _ _ (by decide), colFindL_removeColL_ne _ _ _ (by decide),
        colFindL_setColL_self, colFindL_setColL_ne _ _ _ _ (by decide), hc]
    · rw [DataFrame.getCol]
      dsimp only
      rw [colFindL_removeColL_ne _ _ _ (by decide), colFindL_setColL_self]
      rfl

/-- C1 witness: on the concrete one-row OHLCV response `rawGood` the
returned table `outGood` has `price` equal to `close_price`. -/
theorem price_duplicates_close_witness :
    outGood.getCol "price" = outGood.getCol "close_price" :=
  (price_duplicates_close dlGood "AAPL" "2023-01-03" "2023-01-10" "1d" outGood rfl).1

/-- C4: for every provider response on which `get_pricing` returns
normally, the output index has exactly the two levels `timestamp` and
`symbol`, and every row's symbol level equals the input ticker. -/
theorem index_two_levels (dl : String → String → String → String → Except String RawFrame)
    (t s e f : String) (out : DataFrame)
    (h : get_pricing dl t s e f = Except.ok out) :
    out.index.map Prod.fst = ["timestamp", "symbol"] ∧
    ∃ d, out.index = [("timestamp", d), ("symbol", List.replicate d.length (Value.str t))] := by
  cases hdl : dl t s e (interval f) with
  | error msg => rw [get_pricing, hdl] at h; simp [get_pricing_of] at h
  | ok raw =>
    obtain ⟨hne, cv, hc, ht, rfl⟩ := get_pricing_ok_inv dl t s e f raw out hdl h
    exact ⟨rfl, raw.dates, rfl⟩

/-- C4 witness: on `rawGood` with ticker AAPL the index levels are
`timestamp` and `symbol`. -/
theorem index_two_levels_witness :
    outGood.index.map Prod.fst = ["timestamp", "symbol"] :=
  (index_two_levels dlGood "AAPL" "2023-01-03" "2023-01-10" "1d" outGood rfl).1

/-- C7: "1m" maps to the provider's minute interval, every other
frequency string is passed through unchanged, and `get_pricing` always
hands the computed interval to the provider (it never rejects a
frequency itself). -/
theorem interval_passthrough (f : String) :
    interval "1m" = "1m" ∧ (f ≠ "1m" → interval f = f) ∧
    ∀ dl t s e, get_pricing dl t s e f =
      get_pricing_of (dl t s e (interval f)) t s e := by
  refine ⟨rfl, ?_, fun dl t s e => rfl⟩
  intro hf
  rw [interval, if_neg (by simpa using hf)]

/-- C7 witness: at the concrete unrecognised frequency "1wk" the
interval is passed through unchanged, and "1m" maps to "1m". -/
theorem interval_passthrough_witness :
    interval "1m" = "1m" ∧ interval "1wk" = "1wk" :=
  ⟨(interval_passthrough "1wk").1, (interval_passthrough "1wk").2.1 (by decide)⟩

/-- C8: for every non-empty provider response on which `get_pricing`
returns normally, the output row count equals the provider row count. -/
theorem row_count_preserved (dl : String → String → String → String → Except String RawFrame)
    (t s e f : String) (raw : RawFrame) (out : DataFrame)
    (hdl : dl t s e (interval f) = Except.ok raw)
    (h : get_pricing dl t s e f = Except.ok out) :
    out.nrows = raw.toFrame.nrows := by
  obtain ⟨hne, cv, hc, ht, rfl⟩ := get_pricing_ok_inv dl t s e f raw out hdl h
  rfl

/-- C8 witness: on the one-row `rawGood` the output also has one row. -/
theorem row_count_preserved_witness : outGood.nrows = rawGood.toFrame.nrows :=
  row_count_preserved dlGood "AAPL" "2023-01-03" "2023-01-10" "1d" rawGood outGood rfl rfl

/-- C9: the output of `get_pricing` is a pure, deterministic function
of the single provider response (and the call arguments): two oracles
agreeing on that one response give identical results, and the whole
call factors through `get_pricing_of` applied to that response. -/
theorem shaping_pure (dl1 dl2 : String → String → String → String → Except String RawFrame)
    (t s e f : String)
    (h : dl1 t s e (interval f) = dl2 t s e (interval f)) :
    get_pricing dl1 t s e f = get_pricing dl2 t s e f ∧
    get_pricing dl1 t s e f = get_pricing_of (dl1 t s e (interval f)) t s e := by
  constructor
  · rw [get_pricing, get_pricing, h]
  · rfl

/-- C9 witness: the two separately defined oracles `dlGood` and
`dlGoodAgain` with equal responses give byte-identical outputs. -/
theorem shaping_pure_witness :
    get_pricing dlGood "AAPL" "2023-01-03" "2023-01-10" "1d" =
      get_pricing dlGoodAgain "AAPL" "2023-01-03" "2023-01-10" "1d" :=
  (shaping_pure dlGood dlGoodAgain "AAPL" "2023-01-03" "2023-01-10" "1d" rfl).1

/-- C10: whenever `get_pricing` returns normally, the returned table
has at least one row: the empty-result check makes an empty output
unreachable. -/
theorem output_nonempty (dl : String → String → String → String → Except String RawFrame)
    (t s e f : String) (out : DataFrame)
    (h : get_pricing dl t s e f = Except.ok out) :
    1 ≤ out.nrows := by
  cases hdl : dl t s e (interval f) with
  | error msg => rw [get_pricing, hdl] at h; simp [get_pricing_of] at h
  | ok raw =>
    obtain ⟨hne, cv, hc, ht, rfl⟩ := get_pricing_ok_inv dl t s e f raw out hdl h
    have hlen : raw.dates.length ≠ 0 := by
      simp [RawFrame.toFrame, DataFrame.isEmpty, DataFrame.nrows] at hne
      simpa [List.length_eq_zero] using hne.1
    show 1 ≤ raw.dates.length
    omega

/-- C10 witness: the concrete output `outGood` has at least one row. -/
theorem output_nonempty_witness : 1 ≤ outGood.nrows :=
  output_nonempty dlGood "AAPL" "2023-01-03" "2023-01-10" "1d" outGood rfl

/-- C2 (amended): `get_pricing` raises a descriptive value-error when
the provider call raises and when the provider returns an empty frame;
for a non-empty response whose renamed columns include `close_price`
and include no `timestamp` column it returns a table; but a non-empty
response lacking a close column instead escapes with an unhandled
key-error, so the two value-error cases are not the only faults. -/
theorem error_modes (dl : String → String → String → String → Except String RawFrame)
    (t s e f : String) :
    (∀ msg, dl t s e (interval f) = Except.error msg →
      get_pricing dl t s e f =
        Except.error (PyError.valueError ("Error fetching data for " ++ t ++ ": " ++ msg))) ∧
    (∀ raw, dl t s e (interval f) = Except.ok raw → raw.toFrame.isEmpty = true →
      get_pricing dl t s e f =
        Except.error (PyError.valueError
          ("No data found for " ++ t ++ " from " ++ s ++ " to " ++ e ++ "."))) ∧
    (∀ raw, dl t s e (interval f) = Except.ok raw → raw.toFrame.isEmpty = false →
      (∀ cv, colFindL (renameCols renameMap raw.cols) "close_price" = some cv →
        hasNameL (renameCols renameMap raw.cols) "timestamp" = false →
        ∃ out, get_pricing dl t s e f = Except.ok out) ∧
      (colFindL (renameCols renameMap raw.cols) "close_price" = none →
        get_pricing dl t s e f = Except.error (PyError.keyError "close_price"))) := by
  refine ⟨?_, ?_, ?_⟩
  · intro msg hm
    rw [get_pricing, hm]
    rfl
  · intro raw hr he
    rw [get_pricing, hr]
    simp [get_pricing_of, he]
  · intro raw hr he
    constructor
    · intro cv hc ht
      refine ⟨{ index := [("timestamp", raw.dates),
                          ("symbol", List.replicate raw.dates.length (Value.str t))],
                cols := removeColL (setColL (renameCols renameMap raw.cols) "price" cv)
                          "symbol" }, ?_⟩
      rw [get_pricing, hr]
      simp only [get_pricing_of, he, Bool.false_eq_true, if_false]
      rw [RawFrame.toFrame]
      exact shape_ok_of t "Date" raw.dates raw.cols cv hc ht
    · intro hc
      rw [get_pricing, hr]
      simp only [get_pricing_of, he, Bool.false_eq_true, if_false]
      rw [RawFrame.toFrame]
      exact shape_err_noClose t "Date" raw.dates raw.cols hc

/-- C2 counterexample: a non-empty provider response without any close
column makes `get_pricing` fail with a key-error — a third failure
mode, not one of the two claimed value-error cases and not a table. -/
theorem error_modes_cex :
    rawNoClose.toFrame.isEmpty = false ∧
    get_pricing dlNoClose "AAPL" "2023-01-03" "2023-01-10" "1d" =
      Except.error (PyError.keyError "close_price") :=
  ⟨rfl, rfl⟩

/-- C2 witness: the empty provider response yields the descriptive
no-data value-error. -/
theorem error_modes_witness :
    get_pricing dlEmpty "AAPL" "2023-01-03" "2023-01-03" "1d" =
      Except.error (PyError.valueError
        "No data found for AAPL from 2023-01-03 to 2023-01-03.") :=
  (error_modes dlEmpty "AAPL" "2023-01-03" "2023-01-03" "1d").2.1 rawEmpty rfl rfl

/-- C3 (amended): when the provider returns exactly the five native
columns Open, High, Low, Close, Volume, the output columns are exactly
`open_price, high, low, close_price, volume, price` in that order; an
unrecognised provider column is however passed through, so this column
set is only guaranteed for the five-column response shape. -/
theorem columns_after_rename (dl : String → String → String → String → Except String RawFrame)
    (t s e f : String) (d o hi lo c v : List Value)
    (hdl : dl t s e (interval f) =
      Except.ok { dates := d,
                  cols := [("Open", o), ("High", hi), ("Low", lo),
                           ("Close", c), ("Volume", v)] })
    (hne : d ≠ []) :
    Except.map DataFrame.colNames (get_pricing dl t s e f) =
      Except.ok ["open_price", "high", "low", "close_price", "volume", "price"] := by
  obtain ⟨a, d2, rfl⟩ : ∃ a d2, d = a :: d2 := by
    cases d with
    | nil => exact absurd rfl hne
    | cons a d2 => exact ⟨a, d2, rfl⟩
  rw [get_pricing, hdl]
  rfl

/-- C3 counterexample: with the extra provider-native column
`Adj Close` (which real yfinance includes by default) `get_pricing`
still returns normally but the output contains a seventh column, so
the output columns are not exactly the six claimed ones. -/
theorem columns_after_rename_cex :
    Except.map DataFrame.colNames (get_pricing dlAdj "AAPL" "2023-01-03" "2023-01-10" "1d") =
      Except.ok ["open_price", "high", "low", "close_price", "Adj Close", "volume", "price"] ∧
    ["open_price", "high", "low", "close_price", "Adj Close", "volume", "price"] ≠
      ["open_price", "high", "low", "close_price", "volume", "price"] :=
  ⟨rfl, by decide⟩

/-- C3 witness: on the five-column `rawGood` the output columns are
exactly the six claimed labels in order. -/
theorem columns_after_rename_witness :
    Except.map DataFrame.colNames (get_pricing dlGood "AAPL" "2023-01-03" "2023-01-10" "1d") =
      Except.ok ["open_price", "high", "low", "close_price", "volume", "price"] :=
  columns_after_rename dlGood "AAPL" "2023-01-03" "2023-01-10" "1d"
    [Value.num 0] [Value.num 10] [Value.num 12] [Value.num 9] [Value.num 11] [Value.num 1000]
    rfl (by decide)

theorem fetch_body_no_quit (b : Browser) : (fetch_body b).1.count Event.quit = 0 := by
  rw [fetch_body]
  cases hn : b.nav with
  | error e => simp [seqE, List.count_cons]
  | ok u =>
    cases hf : b.find with
    | error e => simp [seqE, List.count_cons, List.count_append]
    | ok txt => simp [seqE, List.count_cons, List.count_append]

/-- C5: once the driver has been created, the browser session is
released on every exit path: whatever the navigation and element
lookup outcomes, the event trace of `get_product_price` ends with
`quit`, and `quit` is emitted exactly once. -/
theorem session_always_released (b : Browser) (h : b.setup = Except.ok ()) :
    (get_product_price b).1.getLast? = some Event.quit ∧
    (get_product_price b).1.count Event.quit = 1 := by
  rw [get_product_price, h]
  constructor
  · rw [runFinally]
    exact List.getLast?_concat _
  · rw [runFinally]
    dsimp only
    rw [List.count_append, fetch_body_no_quit]
    rfl

/-- C5 witness: with the element absent after the fixed wait (the
extraction-failure path) the trace still ends with `quit`. -/
theorem session_always_released_witness :
    (get_product_price bNoElem).1.getLast? = some Event.quit :=
  (session_always_released bNoElem rfl).1

theorem lambda_handler_snd (b : Browser) :
    (lambda_handler b).2 = Except.map
      (fun price => { statusCode := 200, body := "The current price is: " ++ price })
      (get_product_price b).2 := by
  rw [lambda_handler]
  cases get_product_price b with
  | mk evs res => cases res <;> rfl

/-- C6: whenever the page fetch succeeds with text `t`, the handler
returns exactly `{statusCode := 200, body := "The current price is: " ++ t}`;
every successful handler result has status 200, and every fault inside
the fetch propagates unhandled instead of producing a non-200
response. -/
theorem handler_envelope (b : Browser) :
    (∀ txt, (get_product_price b).2 = Except.ok txt →
      (lambda_handler b).2 =
        Except.ok { statusCode := 200, body := "The current price is: " ++ txt }) ∧
    (∀ r, (lambda_handler b).2 = Except.ok r → r.statusCode = 200) ∧
    (∀ err, (get_product_price b).2 = Except.error err →
      (lambda_handler b).2 = Except.error err) := by
  refine ⟨?_, ?_, ?_⟩
  · intro txt htxt
    rw [lambda_handler_snd, htxt]
    rfl
  · intro r hr
    rw [lambda_handler_snd] at hr
    cases hres : (get_product_price b).2 with
    | error err0 => rw [hres] at hr; cases hr
    | ok txt =>
      rw [hres] at hr
      have h2 := Except.ok.inj hr
      rw [← h2]
  · intro err herr
    rw [lambda_handler_snd, herr]
    rfl

/-- C6 witness: with the concrete successful browser `bOk` the handler
returns the 200 envelope with the formatted body. -/
theorem handler_envelope_witness :
    (lambda_handler bOk).2 =
      Except.ok { statusCode := 200, body := "The current price is: £9.99" } :=
  (handler_envelope bOk).1 "£9.99" rfl
